import Mathlib

/-!
# Verification of the 800G topology visualizer core

Shallow embedding of the topology layout generator and the three
connection-geometry builders of `src/components/NetworkScene.tsx`
(repository `800Gtoposhow3D`), together with proofs settling the
specification claims about them.

Coordinates are modelled by exact rationals; every numeric value the
embedded code computes on the claimed inputs is a dyadic rational or an
exact quotient, so rational arithmetic agrees with the source's
floating-point arithmetic on everything stated here.
-/

/-- 3-D point (`THREE.Vector3`). -/
structure Vec3 where
  x : ℚ
  y : ℚ
  z : ℚ
deriving DecidableEq, Repr

/-- The closed node tag set from `src/types.ts` (`NodeType`). -/
inductive NodeType where
  | spine
  | leaf
  | server
deriving DecidableEq, Repr

/-- `NodeData` from `src/types.ts`: optional fields become `Option`. -/
structure NodeData where
  id : ℕ
  type : NodeType
  clusterId : Option ℕ
  groupId : Option ℕ
  position : Vec3
  label : String
deriving DecidableEq, Repr

/-- `NetworkLayout` from `src/types.ts`: three ordered node sequences. -/
structure NetworkLayout where
  spines : List NodeData
  leafs : List NodeData
  servers : List NodeData
deriving DecidableEq, Repr

/-- A line segment: an ordered pair of 3-D points.  The source pushes the
six coordinates of such a pair into a flat `number[]` buffer. -/
def Segment : Type := Vec3 × Vec3

instance : DecidableEq Segment := instDecidableEqProd

-- Layout constants of `NetworkScene.tsx`.
def SPINE_COUNT : ℕ := 64
def LEAF_GROUPS : ℕ := 16
def LEAFS_PER_GROUP : ℕ := 8
def SPINE_Y : ℚ := 15
def LEAF_Y : ℚ := -5
def SERVER_Y : ℚ := -25
def SPINE_SPACING : ℚ := 5/2
def GROUP_SPACING : ℚ := 10
def LEAF_LOCAL_SPACING_Z : ℚ := 2
def CLUSTER_SPACING_Z : ℚ := 60
def SERVERS_PER_GROUP_STD : ℕ := 64
def SERVERS_LAST_GROUP : ℕ := 56
def SERVER_SPACING : ℚ := 1

/-- Number of iterations of the JS loop `for (let c = 0; c < bound; c++)`
for an arbitrary (possibly negative or fractional) numeric bound. -/
def loopIters (bound : ℚ) : ℕ := (Int.ceil bound).toNat

/-- `clusterZOffset = c * CLUSTER_SPACING_Z * -1`. -/
def clusterZOffset (c : ℕ) : ℚ := (c : ℚ) * CLUSTER_SPACING_Z * (-1)

/-- `spineStartX = -((SPINE_COUNT - 1) * SPINE_SPACING) / 2`. -/
def spineStartX : ℚ := -(((SPINE_COUNT : ℚ) - 1) * SPINE_SPACING) / 2

/-- `groupStartX = -((LEAF_GROUPS - 1) * GROUP_SPACING) / 2`. -/
def groupStartX : ℚ := -(((LEAF_GROUPS : ℚ) - 1) * GROUP_SPACING) / 2

/-- `groupCenterX = groupStartX + g * GROUP_SPACING`. -/
def groupCenterX (g : ℕ) : ℚ := groupStartX + (g : ℚ) * GROUP_SPACING

/-- The spine node pushed for cluster `c`, spine index `i`, with the value
of `globalIdCounter` at push time. -/
def spineNode (c i id : ℕ) : NodeData :=
  { id := id
    type := NodeType.spine
    clusterId := some c
    groupId := none
    position := ⟨spineStartX + (i : ℚ) * SPINE_SPACING, SPINE_Y, clusterZOffset c⟩
    label := "C" ++ toString (c + 1) ++ "-Spine-" ++ toString (i + 1) }

/-- The leaf node pushed for cluster `c`, group `g`, local index `l`, with
the value of `globalIdCounter` at push time. -/
def leafNode (c g l id : ℕ) : NodeData :=
  { id := id
    type := NodeType.leaf
    clusterId := some c
    groupId := some g
    position := ⟨groupCenterX g, LEAF_Y,
      ((l : ℚ) - ((LEAFS_PER_GROUP : ℚ) - 1) / 2) * LEAF_LOCAL_SPACING_Z + clusterZOffset c⟩
    label := "C" ++ toString (c + 1) ++ "-Leaf-G" ++ toString (g + 1) ++ "-" ++ toString (l + 1) }

/-- `serverCount = (g === 15) ? SERVERS_LAST_GROUP : SERVERS_PER_GROUP_STD`. -/
def serverCount (g : ℕ) : ℕ := if g = 15 then SERVERS_LAST_GROUP else SERVERS_PER_GROUP_STD

/-- `baseZ = clusterCount > 1 ? (0 + CLUSTER_SPACING_Z * -1) / 2 : 0`. -/
def serverBaseZ (clusterCount : ℚ) : ℚ :=
  if 1 < clusterCount then (0 + CLUSTER_SPACING_Z * (-1)) / 2 else 0

/-- The server node pushed for group `g`, server index `s`, with the value
of `globalIdCounter` at push time;
`zOffset = s * SERVER_SPACING - totalLength / 2`. -/
def serverNode (clusterCount : ℚ) (g s id : ℕ) : NodeData :=
  { id := id
    type := NodeType.server
    clusterId := none
    groupId := some g
    position := ⟨groupCenterX g, SERVER_Y,
      serverBaseZ clusterCount +
        ((s : ℚ) * SERVER_SPACING - ((serverCount g : ℚ) - 1) * SERVER_SPACING / 2)⟩
    label := "Server-G" ++ toString (g + 1) ++ "-" ++ toString (s + 1) }

/-- Ids consumed by one cluster iteration: 64 spines then 128 leafs. -/
def IDS_PER_CLUSTER : ℕ := SPINE_COUNT + LEAF_GROUPS * LEAFS_PER_GROUP

/-- Value of `globalIdCounter` when group `g`'s first server is pushed,
relative to the counter value at the start of the server block. -/
def serverIdOffset (g : ℕ) : ℕ := ((List.range g).map serverCount).sum

/-- The layout `useMemo` of `NetworkScene`: the pure function from
`(clusterCount, isServerMode)` to the generated `NetworkLayout`.  The
mutable `globalIdCounter` is embedded in closed form: each cluster
iteration pushes 64 spines then 128 leafs (consuming `IDS_PER_CLUSTER`
consecutive ids), and the server block then continues the counter at
`loopIters clusterCount * IDS_PER_CLUSTER`. -/
def generate (clusterCount : ℚ) (includeServers : Bool) : NetworkLayout :=
  let n := loopIters clusterCount
  { spines :=
      (List.range n).flatMap fun c =>
        (List.range SPINE_COUNT).map fun i =>
          spineNode c i (c * IDS_PER_CLUSTER + i)
    leafs :=
      (List.range n).flatMap fun c =>
        (List.range LEAF_GROUPS).flatMap fun g =>
          (List.range LEAFS_PER_GROUP).map fun l =>
            leafNode c g l (c * IDS_PER_CLUSTER + SPINE_COUNT + g * LEAFS_PER_GROUP + l)
    servers :=
      if includeServers then
        (List.range LEAF_GROUPS).flatMap fun g =>
          (List.range (serverCount g)).map fun s =>
            serverNode clusterCount g s (n * IDS_PER_CLUSTER + serverIdOffset g + s)
      else [] }

/-- The static full-mesh geometry (`staticGeo`): for every spine and every
leaf with `spine.clusterId === leaf.clusterId`, one segment; then, if any
servers exist, for every server and every leaf with
`leaf.groupId === server.groupId`, one segment. -/
def buildFullMesh (L : NetworkLayout) : List Segment :=
  (L.spines.flatMap fun spine =>
    L.leafs.filterMap fun leaf =>
      if spine.clusterId = leaf.clusterId then some (spine.position, leaf.position)
      else none)
  ++
  (if L.servers.length > 0 then
    L.servers.flatMap fun server =>
      L.leafs.filterMap fun leaf =>
        if leaf.groupId = server.groupId then some (server.position, leaf.position)
        else none
  else [])

/-- The active-highlight geometry (`activeGeo`): no hovered node yields no
geometry; otherwise lines from the hovered node to each related node,
selected by the hovered node's own `type`, `clusterId` and `groupId`. -/
def buildHighlight (L : NetworkLayout) (hoveredNode : Option NodeData) : List Segment :=
  match hoveredNode with
  | none => []
  | some n =>
    match n.type with
    | NodeType.spine =>
        L.leafs.filterMap fun leaf =>
          if leaf.clusterId = n.clusterId then some (n.position, leaf.position) else none
    | NodeType.leaf =>
        (L.spines.filterMap fun spine =>
          if spine.clusterId = n.clusterId then some (n.position, spine.position) else none)
        ++
        (L.servers.filterMap fun server =>
          if server.groupId = n.groupId then some (n.position, server.position) else none)
    | NodeType.server =>
        L.leafs.filterMap fun leaf =>
          if leaf.groupId = n.groupId then some (n.position, leaf.position) else none

/-- `THREE.QuadraticBezierCurve3.getPoint`: the quadratic Bezier through
`p0`, control `p1`, `p2` at parameter `t`. -/
def bezierPoint (p0 p1 p2 : Vec3) (t : ℚ) : Vec3 :=
  ⟨(1 - t) ^ 2 * p0.x + 2 * (1 - t) * t * p1.x + t ^ 2 * p2.x,
   (1 - t) ^ 2 * p0.y + 2 * (1 - t) * t * p1.y + t ^ 2 * p2.y,
   (1 - t) ^ 2 * p0.z + 2 * (1 - t) * t * p1.z + t ^ 2 * p2.z⟩

/-- `curve.getPoints(divisions)`: `divisions + 1` points at `t = k / divisions`. -/
def curveGetPoints (p0 p1 p2 : Vec3) (divisions : ℕ) : List Vec3 :=
  (List.range (divisions + 1)).map fun k => bezierPoint p0 p1 p2 ((k : ℚ) / (divisions : ℚ))

/-- The inner loop `for (k = 0; k < curvePoints.length - 1; k++)` pushing
segment `(pts[k], pts[k+1])`. -/
def chainSegments (pts : List Vec3) : List Segment := pts.zip pts.tail

/-- The body run for one guarded leaf pair: midpoint control point dropped
by `curveDepth = 25`, sampled with `getPoints(20)`. -/
def escapePairSegments (leafA leafB : NodeData) : List Segment :=
  let s := leafA.position
  let e := leafB.position
  let controlPoint : Vec3 := ⟨(s.x + e.x) / 2, (s.y + e.y) / 2 - 25, (s.z + e.z) / 2⟩
  chainSegments (curveGetPoints s controlPoint e 20)

/-- The escape-route geometry of `EscapeConnections`: empty unless
`active` and `clusterCount >= 2`; otherwise, for each adjacent cluster
pair, the 8 index-guarded leaf pairs of the last leaf group, each expanded
into bezier sub-segments.  Out-of-range lookups (`layout.leafs[idx]`
yielding `undefined`) are `List.get?` misses and are skipped by the
`if (leafA && leafB)` guard. -/
def buildEscapeRoutes (L : NetworkLayout) (active : Bool) (clusterCount : ℚ) : List Segment :=
  if ¬active ∨ clusterCount < 2 then []
  else
    (List.range (loopIters (clusterCount - 1))).flatMap fun c =>
      (List.range LEAFS_PER_GROUP).flatMap fun i =>
        match L.leafs.get? (c * (LEAF_GROUPS * LEAFS_PER_GROUP) + (LEAF_GROUPS - 1) * LEAFS_PER_GROUP + i),
              L.leafs.get? ((c + 1) * (LEAF_GROUPS * LEAFS_PER_GROUP) + (LEAF_GROUPS - 1) * LEAFS_PER_GROUP + i) with
        | some leafA, some leafB => escapePairSegments leafA leafB
        | _, _ => []

/-- All nodes of a layout in sequence order, used to state id uniqueness. -/
def allNodes (L : NetworkLayout) : List NodeData := L.spines ++ L.leafs ++ L.servers

/-! ## Basic facts about the generator -/

lemma loopIters_natCast (n : ℕ) : loopIters (n : ℚ) = n := by
  simp [loopIters]

lemma loopIters_of_neg {q : ℚ} (hq : q < 0) : loopIters q = 0 := by
  have : Int.ceil q ≤ 0 := Int.ceil_le.mpr (by exact_mod_cast hq.le)
  simp [loopIters, Int.toNat_of_nonpos this]

lemma spines_generate (q : ℚ) (b : Bool) :
    (generate q b).spines =
      (List.range (loopIters q)).flatMap fun c =>
        (List.range SPINE_COUNT).map fun i => spineNode c i (c * IDS_PER_CLUSTER + i) := rfl

lemma leafs_generate (q : ℚ) (b : Bool) :
    (generate q b).leafs =
      (List.range (loopIters q)).flatMap fun c =>
        (List.range LEAF_GROUPS).flatMap fun g =>
          (List.range LEAFS_PER_GROUP).map fun l =>
            leafNode c g l (c * IDS_PER_CLUSTER + SPINE_COUNT + g * LEAFS_PER_GROUP + l) := rfl

lemma servers_generate_true (q : ℚ) :
    (generate q true).servers =
      (List.range LEAF_GROUPS).flatMap fun g =>
        (List.range (serverCount g)).map fun s =>
          serverNode q g s (loopIters q * IDS_PER_CLUSTER + serverIdOffset g + s) := rfl

lemma servers_generate_false (q : ℚ) : (generate q false).servers = [] := rfl

lemma mem_spines_generate {q : ℚ} {b : Bool} {n : NodeData} :
    n ∈ (generate q b).spines ↔
      ∃ c < loopIters q, ∃ i < SPINE_COUNT, n = spineNode c i (c * IDS_PER_CLUSTER + i) := by
  rw [spines_generate]
  simp only [List.mem_flatMap, List.mem_map, List.mem_range]
  constructor
  · rintro ⟨c, hc, i, hi, rfl⟩
    exact ⟨c, hc, i, hi, rfl⟩
  · rintro ⟨c, hc, i, hi, rfl⟩
    exact ⟨c, hc, i, hi, rfl⟩

lemma mem_leafs_generate {q : ℚ} {b : Bool} {n : NodeData} :
    n ∈ (generate q b).leafs ↔
      ∃ c < loopIters q, ∃ g < LEAF_GROUPS, ∃ l < LEAFS_PER_GROUP,
        n = leafNode c g l (c * IDS_PER_CLUSTER + SPINE_COUNT + g * LEAFS_PER_GROUP + l) := by
  rw [leafs_generate]
  simp only [List.mem_flatMap, List.mem_map, List.mem_range]
  constructor
  · rintro ⟨c, hc, g, hg, l, hl, rfl⟩
    exact ⟨c, hc, g, hg, l, hl, rfl⟩
  · rintro ⟨c, hc, g, hg, l, hl, rfl⟩
    exact ⟨c, hc, g, hg, l, hl, rfl⟩

lemma mem_servers_generate {q : ℚ} {n : NodeData} :
    n ∈ (generate q true).servers ↔
      ∃ g < LEAF_GROUPS, ∃ s < serverCount g,
        n = serverNode q g s (loopIters q * IDS_PER_CLUSTER + serverIdOffset g + s) := by
  rw [servers_generate_true]
  simp only [List.mem_flatMap, List.mem_map, List.mem_range]
  constructor
  · rintro ⟨g, hg, s, hs, rfl⟩
    exact ⟨g, hg, s, hs, rfl⟩
  · rintro ⟨g, hg, s, hs, rfl⟩
    exact ⟨g, hg, s, hs, rfl⟩

lemma length_spines_generate (q : ℚ) (b : Bool) :
    (generate q b).spines.length = SPINE_COUNT * loopIters q := by
  rw [spines_generate, List.length_flatMap]
  have : (List.map (List.length ∘ fun c =>
      (List.range SPINE_COUNT).map fun i => spineNode c i (c * IDS_PER_CLUSTER + i))
      (List.range (loopIters q))) = List.map (fun _ => SPINE_COUNT) (List.range (loopIters q)) := by
    apply List.map_congr_left
    intro c _
    simp
  rw [this, List.map_const', List.sum_replicate, List.length_range, smul_eq_mul, Nat.mul_comm]

lemma length_leafs_generate (q : ℚ) (b : Bool) :
    (generate q b).leafs.length = LEAF_GROUPS * LEAFS_PER_GROUP * loopIters q := by
  rw [leafs_generate, List.length_flatMap]
  have : (List.map (List.length ∘ fun c =>
      (List.range LEAF_GROUPS).flatMap fun g =>
        (List.range LEAFS_PER_GROUP).map fun l =>
          leafNode c g l (c * IDS_PER_CLUSTER + SPINE_COUNT + g * LEAFS_PER_GROUP + l))
      (List.range (loopIters q)))
      = List.map (fun _ => LEAF_GROUPS * LEAFS_PER_GROUP) (List.range (loopIters q)) := by
    apply List.map_congr_left
    intro c _
    simp only [Function.comp_apply, List.length_flatMap]
    have : (List.map (List.length ∘ fun g =>
        (List.range LEAFS_PER_GROUP).map fun l =>
          leafNode c g l (c * IDS_PER_CLUSTER + SPINE_COUNT + g * LEAFS_PER_GROUP + l))
        (List.range LEAF_GROUPS))
        = List.map (fun _ => LEAFS_PER_GROUP) (List.range LEAF_GROUPS) := by
      apply List.map_congr_left
      intro g _
      simp
    rw [this, List.map_const', List.sum_replicate, List.length_range, smul_eq_mul, Nat.mul_comm]
  rw [this, List.map_const', List.sum_replicate, List.length_range, smul_eq_mul, Nat.mul_comm]

lemma length_servers_generate (q : ℚ) :
    (generate q true).servers.length = 1016 := by
  rw [servers_generate_true, List.length_flatMap]
  have : (List.map (List.length ∘ fun g =>
      (List.range (serverCount g)).map fun s =>
        serverNode q g s (loopIters q * IDS_PER_CLUSTER + serverIdOffset g + s))
      (List.range LEAF_GROUPS)) = List.map serverCount (List.range LEAF_GROUPS) := by
    apply List.map_congr_left
    intro g _
    simp
  rw [this]
  decide

/-! ## Counting helpers -/

lemma filterMap_ite_eq_map_filter {α β : Type} (l : List α) (p : α → Prop) [DecidablePred p]
    (f : α → β) :
    (l.filterMap fun a => if p a then some (f a) else none)
      = (l.filter fun a => decide (p a)).map f := by
  induction l with
  | nil => rfl
  | cons a l ih =>
    by_cases h : p a
    · simp [List.filterMap_cons, List.filter_cons, h, ih]
    · simp [List.filterMap_cons, List.filter_cons, h, ih]

lemma length_flatMap_filterMap_product {α β γ : Type} (l₁ : List α) (l₂ : List β)
    (p : α → β → Prop) [∀ a b, Decidable (p a b)] (f : α → β → γ) :
    (l₁.flatMap fun a => l₂.filterMap fun b => if p a b then some (f a b) else none).length
      = ((l₁ ×ˢ l₂).filter fun x => decide (p x.1 x.2)).length := by
  induction l₁ with
  | nil => rfl
  | cons a l ih =>
    rw [List.flatMap_cons, List.product_cons, List.filter_append, List.length_append,
      List.length_append, ih, filterMap_ite_eq_map_filter, List.length_map, List.filter_map,
      List.length_map]
    rfl

lemma sum_map_ite_eq (N g : ℕ) (h : ℕ → ℕ) (hg : g < N) :
    ((List.range N).map fun x => if x = g then h x else 0).sum = h g := by
  induction N with
  | zero => omega
  | succ n ih =>
    rw [List.range_succ, List.map_append, List.sum_append]
    simp only [List.map_cons, List.map_nil, List.sum_cons, List.sum_nil]
    rcases Nat.lt_succ_iff_lt_or_eq.mp hg with h1 | h1
    · rw [ih h1, if_neg (by omega)]
      omega
    · subst h1
      rw [if_pos rfl]
      have hz : ((List.range g).map fun x => if x = g then h x else 0).sum = 0 := by
        apply List.sum_eq_zero
        intro x hx
        rw [List.mem_map] at hx
        obtain ⟨y, hy, rfl⟩ := hx
        rw [List.mem_range] at hy
        rw [if_neg (by omega)]
      omega

/-! ## Full-mesh builder facts -/

lemma loopIters_one : loopIters 1 = 1 := by
  simp [loopIters]

lemma loopIters_two : loopIters 2 = 2 := by
  simp [loopIters]

lemma length_buildFullMesh (L : NetworkLayout) :
    (buildFullMesh L).length
      = ((L.spines ×ˢ L.leafs).filter fun x => decide (x.1.clusterId = x.2.clusterId)).length
        + ((L.servers ×ˢ L.leafs).filter fun x => decide (x.2.groupId = x.1.groupId)).length := by
  rw [buildFullMesh, List.length_append]
  congr 1
  · exact length_flatMap_filterMap_product L.spines L.leafs
      (fun a b => a.clusterId = b.clusterId) (fun a b => (a.position, b.position))
  · rcases hs : L.servers with _ | ⟨v, vs⟩
    · simp [hs]
    · rw [if_pos (by simp)]
      exact length_flatMap_filterMap_product (v :: vs) L.leafs
        (fun a b => b.groupId = a.groupId) (fun a b => (a.position, b.position))

lemma mem_buildFullMesh {L : NetworkLayout} {seg : Segment} (h : seg ∈ buildFullMesh L) :
    (∃ s ∈ L.spines, ∃ l ∈ L.leafs, s.clusterId = l.clusterId ∧ seg = (s.position, l.position))
    ∨ (∃ v ∈ L.servers, ∃ l ∈ L.leafs, l.groupId = v.groupId ∧ seg = (v.position, l.position)) := by
  rw [buildFullMesh, List.mem_append] at h
  rcases h with h | h
  · left
    rw [List.mem_flatMap] at h
    obtain ⟨s, hs, h⟩ := h
    rw [List.mem_filterMap] at h
    obtain ⟨l, hl, hif⟩ := h
    by_cases hc : s.clusterId = l.clusterId
    · rw [if_pos hc] at hif
      exact ⟨s, hs, l, hl, hc, (Option.some_inj.mp hif).symm⟩
    · rw [if_neg hc] at hif
      exact absurd hif (by simp)
  · right
    by_cases hg : L.servers.length > 0
    · rw [if_pos hg, List.mem_flatMap] at h
      obtain ⟨v, hv, h⟩ := h
      rw [List.mem_filterMap] at h
      obtain ⟨l, hl, hif⟩ := h
      by_cases hc : l.groupId = v.groupId
      · rw [if_pos hc] at hif
        exact ⟨v, hv, l, hl, hc, (Option.some_inj.mp hif).symm⟩
      · rw [if_neg hc] at hif
        exact absurd hif (by simp)
    · rw [if_neg hg] at h
      exact absurd h (by simp)

lemma clusterId_of_mem_spines_one {b : Bool} {n : NodeData}
    (h : n ∈ (generate 1 b).spines) : n.clusterId = some 0 := by
  rw [mem_spines_generate] at h
  obtain ⟨c, hc, i, _, rfl⟩ := h
  rw [loopIters_one] at hc
  interval_cases c
  rfl

lemma clusterId_of_mem_leafs_one {b : Bool} {n : NodeData}
    (h : n ∈ (generate 1 b).leafs) : n.clusterId = some 0 := by
  rw [mem_leafs_generate] at h
  obtain ⟨c, hc, g, _, l, _, rfl⟩ := h
  rw [loopIters_one] at hc
  interval_cases c
  rfl

lemma length_buildFullMesh_one : (buildFullMesh (generate 1 false)).length = 8192 := by
  rw [length_buildFullMesh]
  have hserv : (generate 1 false).servers = [] := rfl
  rw [hserv]
  have hfilter : (((generate 1 false).spines ×ˢ (generate 1 false).leafs).filter
      fun x => decide (x.1.clusterId = x.2.clusterId))
      = (generate 1 false).spines ×ˢ (generate 1 false).leafs := by
    apply List.filter_eq_self.mpr
    intro x hx
    rw [List.mem_product] at hx
    rw [decide_eq_true_eq, clusterId_of_mem_spines_one hx.1, clusterId_of_mem_leafs_one hx.2]
  rw [hfilter, List.length_product, length_spines_generate, length_leafs_generate, loopIters_one]
  simp [SPINE_COUNT, LEAF_GROUPS, LEAFS_PER_GROUP]

/-- C1: for every topology, the full-mesh builder emits exactly one segment
per (spine, leaf) pair with equal `clusterId` and exactly one segment per
(server, leaf) pair with equal `groupId`; every emitted segment comes from
such an equal-cluster or equal-group pair (none crosses clusters or
groups); and for `clusterCount = 1` with servers off the result is exactly
`64 * 128 = 8192` segments. -/
theorem fullMesh_one_segment_per_matching_pair :
    (∀ L : NetworkLayout,
      (buildFullMesh L).length
        = ((L.spines ×ˢ L.leafs).filter fun x => decide (x.1.clusterId = x.2.clusterId)).length
          + ((L.servers ×ˢ L.leafs).filter fun x => decide (x.2.groupId = x.1.groupId)).length)
    ∧ (∀ (L : NetworkLayout) (seg : Segment), seg ∈ buildFullMesh L →
        (∃ s ∈ L.spines, ∃ l ∈ L.leafs,
          s.clusterId = l.clusterId ∧ seg = (s.position, l.position))
        ∨ (∃ v ∈ L.servers, ∃ l ∈ L.leafs,
          l.groupId = v.groupId ∧ seg = (v.position, l.position)))
    ∧ (buildFullMesh (generate 1 false)).length = 64 * 128 :=
  ⟨length_buildFullMesh, fun _ _ h => mem_buildFullMesh h, by rw [length_buildFullMesh_one]⟩

/-- Witness for C1: the single segment emitted for a one-spine, one-leaf
layout is accounted for by an equal-cluster (spine, leaf) pair. -/
theorem fullMesh_one_segment_per_matching_pair_witness :
    (∃ s ∈ (NetworkLayout.mk [spineNode 0 0 0] [leafNode 0 0 0 64] []).spines,
      ∃ l ∈ (NetworkLayout.mk [spineNode 0 0 0] [leafNode 0 0 0 64] []).leafs,
        s.clusterId = l.clusterId ∧
          (((spineNode 0 0 0).position, (leafNode 0 0 0 64).position) : Segment)
            = (s.position, l.position))
    ∨ (∃ v ∈ (NetworkLayout.mk [spineNode 0 0 0] [leafNode 0 0 0 64] []).servers,
      ∃ l ∈ (NetworkLayout.mk [spineNode 0 0 0] [leafNode 0 0 0 64] []).leafs,
        l.groupId = v.groupId ∧
          (((spineNode 0 0 0).position, (leafNode 0 0 0 64).position) : Segment)
            = (v.position, l.position)) :=
  fullMesh_one_segment_per_matching_pair.2.1
    (NetworkLayout.mk [spineNode 0 0 0] [leafNode 0 0 0 64] [])
    ((spineNode 0 0 0).position, (leafNode 0 0 0 64).position)
    (of_decide_eq_true (by with_unfolding_all rfl))

/-! ## Generator count and height claims -/

/-- C6: for every `clusterCount >= 0` the topology has exactly
`64 * clusterCount` spines and `128 * clusterCount` leafs,
`clusterCount = 0` yields empty spine and leaf sequences, spines sit at
height `SPINE_Y = 15` and leafs at height `LEAF_Y = -5`. -/
theorem generate_counts_and_heights :
    ∀ (C : ℕ) (b : Bool),
      (generate (C : ℚ) b).spines.length = 64 * C
      ∧ (generate (C : ℚ) b).leafs.length = 128 * C
      ∧ (∀ s ∈ (generate (C : ℚ) b).spines, s.position.y = SPINE_Y)
      ∧ (∀ l ∈ (generate (C : ℚ) b).leafs, l.position.y = LEAF_Y)
      ∧ SPINE_Y = 15 ∧ LEAF_Y = -5
      ∧ (generate (0 : ℚ) b).spines = [] ∧ (generate (0 : ℚ) b).leafs = [] := by
  intro C b
  have h0 : loopIters (0 : ℚ) = 0 := by simp [loopIters]
  refine ⟨?_, ?_, ?_, ?_, rfl, rfl, ?_, ?_⟩
  · rw [length_spines_generate, loopIters_natCast]
    norm_num [SPINE_COUNT]
  · rw [length_leafs_generate, loopIters_natCast]
    norm_num [LEAF_GROUPS, LEAFS_PER_GROUP]
  · intro s hs
    rw [mem_spines_generate] at hs
    obtain ⟨c, _, i, _, rfl⟩ := hs
    rfl
  · intro l hl
    rw [mem_leafs_generate] at hl
    obtain ⟨c, _, g, _, l', _, rfl⟩ := hl
    rfl
  · rw [spines_generate, h0]
    rfl
  · rw [leafs_generate, h0]
    rfl

/-- Witness for C6: the first spine of the one-cluster layout sits at
height `SPINE_Y`. -/
theorem generate_counts_and_heights_witness :
    (spineNode 0 0 0).position.y = SPINE_Y :=
  (generate_counts_and_heights 1 false).2.2.1 (spineNode 0 0 0)
    (of_decide_eq_true (by with_unfolding_all rfl))

/-! ## Server group counts -/

lemma length_filter_servers (q : ℚ) {g : ℕ} (hg : g < LEAF_GROUPS) :
    ((generate q true).servers.filter fun m => decide (m.groupId = some g)).length
      = serverCount g := by
  rw [servers_generate_true, List.filter_flatMap, List.length_flatMap]
  have hmap : List.map (List.length ∘ fun g' =>
      List.filter (fun m => decide (m.groupId = some g))
        ((List.range (serverCount g')).map fun s =>
          serverNode q g' s (loopIters q * IDS_PER_CLUSTER + serverIdOffset g' + s)))
      (List.range LEAF_GROUPS)
      = List.map (fun g' => if g' = g then serverCount g' else 0) (List.range LEAF_GROUPS) := by
    apply List.map_congr_left
    intro g' _
    simp only [Function.comp_apply, List.filter_map, List.length_map]
    by_cases h : g' = g
    · subst h
      rw [if_pos rfl, List.filter_eq_self.mpr, List.length_range]
      intro s _
      simp [serverNode]
    · rw [if_neg h, List.filter_eq_nil_iff.mpr, List.length_nil]
      intro s _
      simp [serverNode, h]
  rw [hmap, sum_map_ite_eq LEAF_GROUPS g serverCount hg]

/-- C7: with servers on, the topology contains exactly
`15 * 64 + 56 = 1016` servers for every `clusterCount`; the group with the
reduced count of `56` servers is exactly the fixed group index `15`, every
other group has `64`; with servers off the server sequence is empty. -/
theorem servers_count_independent :
    ∀ q : ℚ,
      (generate q true).servers.length = 15 * 64 + 56
      ∧ ((generate q true).servers.filter fun m => decide (m.groupId = some 15)).length = 56
      ∧ (∀ g : ℕ, g < 15 →
          ((generate q true).servers.filter fun m => decide (m.groupId = some g)).length = 64)
      ∧ (generate q false).servers = [] := by
  intro q
  refine ⟨?_, ?_, ?_, servers_generate_false q⟩
  · rw [length_servers_generate]
  · rw [length_filter_servers q (by norm_num [LEAF_GROUPS])]
    rfl
  · intro g hg
    have hg16 : g < LEAF_GROUPS := by
      simp only [LEAF_GROUPS]
      omega
    rw [length_filter_servers q hg16, serverCount, if_neg (by omega)]
    rfl

/-- Witness for C7: group 3 of the two-cluster topology has 64 servers. -/
theorem servers_count_independent_witness :
    ((generate 2 true).servers.filter fun m => decide (m.groupId = some 3)).length = 64 :=
  (servers_count_independent 2).2.2.1 3 (by norm_num)

/-! ## Server base depth (claim C2) -/

/-- Counterexample to C2: at `clusterCount = 3` the claimed base depth is
the midpoint between depth 0 and the last cluster's offset, i.e. `-60`,
but the servers of a group are not symmetric around it: the group-0 server
with index 63 has no mirror partner around `-60`. -/
theorem server_depth_midpoint_counterexample :
    ¬ (∀ m ∈ (generate 3 true).servers, ∃ m2 ∈ (generate 3 true).servers,
        m2.groupId = m.groupId ∧
        m2.position.z = 2 * (((0 : ℚ) + -((3 - 1) * CLUSTER_SPACING_Z)) / 2) - m.position.z) := by
  intro h
  have hmem : serverNode 3 0 63 (loopIters 3 * IDS_PER_CLUSTER + serverIdOffset 0 + 63)
      ∈ (generate 3 true).servers := by
    rw [mem_servers_generate]
    exact ⟨0, by norm_num [LEAF_GROUPS], 63,
      by norm_num [serverCount, SERVERS_PER_GROUP_STD], rfl⟩
  obtain ⟨m2, hm2, hgroup, hz⟩ := h _ hmem
  rw [mem_servers_generate] at hm2
  obtain ⟨g, hg, s, hs, rfl⟩ := hm2
  simp only [serverNode] at hgroup
  rw [Option.some_inj] at hgroup
  subst hgroup
  have hbase : serverBaseZ 3 = -30 := by
    norm_num [serverBaseZ, CLUSTER_SPACING_Z]
  simp only [serverNode, hbase, serverCount, SERVERS_PER_GROUP_STD, SERVER_SPACING,
    CLUSTER_SPACING_Z] at hz
  norm_num at hz
  have : (0 : ℚ) ≤ (s : ℚ) := Nat.cast_nonneg s
  linarith

/-- C2 amended: for every `clusterCount`, the servers of each group are
spread along the depth axis symmetrically around the base depth
`serverBaseZ clusterCount`, which is the constant
`-(CLUSTER_SPACING_Z / 2) = -30` whenever `clusterCount > 1` (the midpoint
between depth 0 and the SECOND cluster's offset, which agrees with the
spec's midpoint-to-last-cluster only for `clusterCount = 2`), and `0`
otherwise. -/
theorem server_depth_symmetric_amended :
    ∀ q : ℚ,
      (∀ m ∈ (generate q true).servers, ∃ m2 ∈ (generate q true).servers,
        m2.groupId = m.groupId ∧
        m2.position.z - serverBaseZ q = -(m.position.z - serverBaseZ q))
      ∧ serverBaseZ q = (if 1 < q then -(CLUSTER_SPACING_Z / 2) else 0) := by
  intro q
  constructor
  · intro m hm
    rw [mem_servers_generate] at hm
    obtain ⟨g, hg, s, hs, rfl⟩ := hm
    refine ⟨serverNode q g (serverCount g - 1 - s)
      (loopIters q * IDS_PER_CLUSTER + serverIdOffset g + (serverCount g - 1 - s)), ?_, ?_, ?_⟩
    · rw [mem_servers_generate]
      exact ⟨g, hg, serverCount g - 1 - s, by omega, rfl⟩
    · rfl
    · have hcount : 1 ≤ serverCount g := by
        rw [serverCount]
        split <;> norm_num [SERVERS_LAST_GROUP, SERVERS_PER_GROUP_STD]
      simp only [serverNode]
      have hcast : ((serverCount g - 1 - s : ℕ) : ℚ) = (serverCount g : ℚ) - 1 - (s : ℚ) := by
        push_cast [Nat.cast_sub (by omega : s ≤ serverCount g - 1), Nat.cast_sub hcount]
        ring
      rw [hcast]
      ring
  · rw [serverBaseZ]
    split <;> norm_num [CLUSTER_SPACING_Z]

set_option maxRecDepth 10000 in
/-- Witness for amended C2: the first group-0 server of the three-cluster
topology has a depth-mirror partner in its group. -/
theorem server_depth_symmetric_amended_witness :
    ∃ m2 ∈ (generate 3 true).servers,
      m2.groupId
          = (serverNode 3 0 0 (loopIters 3 * IDS_PER_CLUSTER + serverIdOffset 0 + 0)).groupId ∧
      m2.position.z - serverBaseZ 3
        = -((serverNode 3 0 0
              (loopIters 3 * IDS_PER_CLUSTER + serverIdOffset 0 + 0)).position.z
            - serverBaseZ 3) :=
  (server_depth_symmetric_amended 3).1 _ (of_decide_eq_true (by with_unfolding_all rfl))

/-! ## Stale focused node (claim C3) -/

set_option maxRecDepth 10000 in
/-- Counterexample to C3: a stale server node (id 192, present only in the
server-mode topology) has no id-and-type match in the current
`generate 1 false` topology, yet the highlight builder does not clear
focus: it emits 8 segments driven by the stale node's own `groupId`. -/
theorem stale_focus_not_cleared_counterexample :
    ((allNodes (generate 1 false)).filter fun n =>
        decide (n.id = (serverNode 1 0 0 192).id ∧ n.type = (serverNode 1 0 0 192).type)).length
      = 0
    ∧ (buildHighlight (generate 1 false) (some (serverNode 1 0 0 192))).length = 8 :=
  of_decide_eq_true (by with_unfolding_all rfl)

/-- C3 amended: the highlight builder never consults the current topology
for the focused node at all: its output depends only on the focused node's
`type`, `clusterId`, `groupId` and `position` — never on its `id` — so a
stale focused node is processed by its fields instead of being resolved by
id-and-type and cleared (and the builder is total, so it never crashes). -/
theorem highlight_ignores_identity_amended :
    ∀ (L : NetworkLayout) (n1 n2 : NodeData),
      n1.type = n2.type → n1.clusterId = n2.clusterId → n1.groupId = n2.groupId →
      n1.position = n2.position →
      buildHighlight L (some n1) = buildHighlight L (some n2) := by
  intro L n1 n2 ht hc hg hp
  obtain ⟨id1, t1, c1, g1, p1, lab1⟩ := n1
  obtain ⟨id2, t2, c2, g2, p2, lab2⟩ := n2
  have ht2 : t1 = t2 := ht
  have hc2 : c1 = c2 := hc
  have hg2 : g1 = g2 := hg
  have hp2 : p1 = p2 := hp
  subst ht2
  subst hc2
  subst hg2
  subst hp2
  cases t1 <;> rfl

/-- Witness for amended C3: two server nodes differing only in `id`
produce the same highlight geometry. -/
theorem highlight_ignores_identity_amended_witness :
    buildHighlight (generate 1 false) (some (serverNode 1 0 0 192))
      = buildHighlight (generate 1 false) (some (serverNode 1 0 0 0)) :=
  highlight_ignores_identity_amended (generate 1 false)
    (serverNode 1 0 0 192) (serverNode 1 0 0 0) rfl rfl rfl rfl

/-! ## Cluster count validation (claim C4) -/

set_option maxRecDepth 10000 in
/-- Counterexample to C4: the generator never rejects: at the negative
input `-1` it silently produces the empty topology, and at the fractional
input `3/2` it silently produces a topology with `ceil(3/2) = 2` clusters
(128 spines) — no error is raised at the boundary. -/
theorem negative_count_not_rejected_counterexample :
    generate (-1) false = { spines := [], leafs := [], servers := [] }
    ∧ (generate (3/2) false).spines.length = 64 * 2 :=
  of_decide_eq_true (by with_unfolding_all rfl)

/-- C4 amended: the generator performs no validation and cannot fail: a
negative `clusterCount` silently yields empty spine and leaf sequences
(clamping to zero clusters), and in general the cluster loop runs
`max 0 ceil(clusterCount)` times, so a non-integer count is silently
rounded up rather than rejected. -/
theorem generator_total_clamps_amended :
    ∀ (q : ℚ) (b : Bool),
      (q < 0 → (generate q b).spines = [] ∧ (generate q b).leafs = [])
      ∧ (generate q b).spines.length = SPINE_COUNT * (Int.ceil q).toNat
      ∧ (generate q b).leafs.length = LEAF_GROUPS * LEAFS_PER_GROUP * (Int.ceil q).toNat := by
  intro q b
  refine ⟨?_, ?_, ?_⟩
  · intro hq
    have h0 : loopIters q = 0 := loopIters_of_neg hq
    constructor
    · rw [spines_generate, h0]
      rfl
    · rw [leafs_generate, h0]
      rfl
  · rw [length_spines_generate]
    rfl
  · rw [length_leafs_generate]
    rfl

/-- Witness for amended C4: at `clusterCount = -1` the generator yields
empty spine and leaf sequences without error. -/
theorem generator_total_clamps_amended_witness :
    (generate (-1) true).spines = [] ∧ (generate (-1) true).leafs = [] :=
  (generator_total_clamps_amended (-1) true).1 (by norm_num)

lemma length_buildHighlight_spine (L : NetworkLayout) (n : NodeData)
    (h : n.type = NodeType.spine) :
    (buildHighlight L (some n)).length
      = (L.leafs.filter fun l => decide (l.clusterId = n.clusterId)).length := by
  obtain ⟨id, t, c, g, p, lab⟩ := n
  have ht : t = NodeType.spine := h
  subst ht
  show (L.leafs.filterMap fun leaf =>
      if leaf.clusterId = c then some (p, leaf.position) else none).length = _
  rw [filterMap_ite_eq_map_filter, List.length_map]

lemma length_buildHighlight_leaf (L : NetworkLayout) (n : NodeData)
    (h : n.type = NodeType.leaf) :
    (buildHighlight L (some n)).length
      = (L.spines.filter fun s => decide (s.clusterId = n.clusterId)).length
        + (L.servers.filter fun v => decide (v.groupId = n.groupId)).length := by
  obtain ⟨id, t, c, g, p, lab⟩ := n
  have ht : t = NodeType.leaf := h
  subst ht
  show ((L.spines.filterMap fun spine =>
      if spine.clusterId = c then some (p, spine.position) else none)
      ++ (L.servers.filterMap fun server =>
      if server.groupId = g then some (p, server.position) else none)).length = _
  rw [List.length_append, filterMap_ite_eq_map_filter, List.length_map,
    filterMap_ite_eq_map_filter, List.length_map]

lemma length_buildHighlight_server (L : NetworkLayout) (n : NodeData)
    (h : n.type = NodeType.server) :
    (buildHighlight L (some n)).length
      = (L.leafs.filter fun l => decide (l.groupId = n.groupId)).length := by
  obtain ⟨id, t, c, g, p, lab⟩ := n
  have ht : t = NodeType.server := h
  subst ht
  show (L.leafs.filterMap fun leaf =>
      if leaf.groupId = g then some (p, leaf.position) else none).length = _
  rw [filterMap_ite_eq_map_filter, List.length_map]

lemma length_buildHighlight_spine_one {s : NodeData}
    (hs : s ∈ (generate 1 false).spines) :
    (buildHighlight (generate 1 false) (some s)).length = 128 := by
  have htype : s.type = NodeType.spine := by
    rw [mem_spines_generate] at hs
    obtain ⟨c, _, i, _, rfl⟩ := hs
    rfl
  rw [length_buildHighlight_spine _ _ htype]
  have hfilter : ((generate 1 false).leafs.filter fun l => decide (l.clusterId = s.clusterId))
      = (generate 1 false).leafs := by
    apply List.filter_eq_self.mpr
    intro l hl
    rw [decide_eq_true_eq, clusterId_of_mem_leafs_one hl, clusterId_of_mem_spines_one hs]
  rw [hfilter, length_leafs_generate, loopIters_one]
  rfl

/-- C8: the highlight builder returns the empty sequence for no focus; a
focused spine yields one segment per leaf sharing its `clusterId` (exactly
128 when `clusterCount = 1`); a focused leaf yields one segment per spine
sharing `clusterId` plus one per server sharing `groupId`; a focused
server yields one segment per leaf sharing `groupId`. -/
theorem highlight_per_focus_type :
    (∀ L : NetworkLayout, buildHighlight L none = [])
    ∧ (∀ (L : NetworkLayout) (n : NodeData), n.type = NodeType.spine →
        (buildHighlight L (some n)).length
          = (L.leafs.filter fun l => decide (l.clusterId = n.clusterId)).length)
    ∧ (∀ (L : NetworkLayout) (n : NodeData), n.type = NodeType.leaf →
        (buildHighlight L (some n)).length
          = (L.spines.filter fun s => decide (s.clusterId = n.clusterId)).length
            + (L.servers.filter fun v => decide (v.groupId = n.groupId)).length)
    ∧ (∀ (L : NetworkLayout) (n : NodeData), n.type = NodeType.server →
        (buildHighlight L (some n)).length
          = (L.leafs.filter fun l => decide (l.groupId = n.groupId)).length)
    ∧ (∀ s ∈ (generate 1 false).spines,
        (buildHighlight (generate 1 false) (some s)).length = 128) :=
  ⟨fun _ => rfl, length_buildHighlight_spine, length_buildHighlight_leaf,
    length_buildHighlight_server, fun _ hs => length_buildHighlight_spine_one hs⟩

set_option maxRecDepth 10000 in
/-- Witness for C8: focusing the first spine of the one-cluster topology
highlights exactly 128 segments. -/
theorem highlight_per_focus_type_witness :
    (buildHighlight (generate 1 false) (some (spineNode 0 0 0))).length = 128 :=
  highlight_per_focus_type.2.2.2.2 (spineNode 0 0 0)
    (of_decide_eq_true (by with_unfolding_all rfl))

lemma escape_empty_of_disabled (L : NetworkLayout) (a : Bool) (q : ℚ)
    (h : a = false ∨ q < 2) : buildEscapeRoutes L a q = [] := by
  rw [buildEscapeRoutes, if_pos]
  rcases h with h | h
  · left
    simp [h]
  · right
    exact h

lemma escape_empty_of_short (L : NetworkLayout) (a : Bool) (q : ℚ)
    (h : L.leafs.length ≤ 120) : buildEscapeRoutes L a q = [] := by
  rw [buildEscapeRoutes]
  split
  · rfl
  · apply List.flatMap_eq_nil_iff.mpr
    intro c _
    apply List.flatMap_eq_nil_iff.mpr
    intro i _
    have h1 : L.leafs.get?
        (c * (LEAF_GROUPS * LEAFS_PER_GROUP) + (LEAF_GROUPS - 1) * LEAFS_PER_GROUP + i)
        = none := by
      rw [List.get?_eq_none]
      simp only [LEAF_GROUPS, LEAFS_PER_GROUP]
      omega
    rw [h1]

lemma mem_buildEscapeRoutes {L : NetworkLayout} {a : Bool} {q : ℚ} {seg : Segment}
    (h : seg ∈ buildEscapeRoutes L a q) :
    ∃ c i leafA leafB, i < LEAFS_PER_GROUP
      ∧ L.leafs.get?
          (c * (LEAF_GROUPS * LEAFS_PER_GROUP) + (LEAF_GROUPS - 1) * LEAFS_PER_GROUP + i)
          = some leafA
      ∧ L.leafs.get?
          ((c + 1) * (LEAF_GROUPS * LEAFS_PER_GROUP) + (LEAF_GROUPS - 1) * LEAFS_PER_GROUP + i)
          = some leafB
      ∧ seg ∈ escapePairSegments leafA leafB := by
  rw [buildEscapeRoutes] at h
  split at h
  · exact absurd h (by simp)
  · rw [List.mem_flatMap] at h
    obtain ⟨c, _, h⟩ := h
    rw [List.mem_flatMap] at h
    obtain ⟨i, hi, h⟩ := h
    rw [List.mem_range] at hi
    rcases hA : L.leafs.get?
        (c * (LEAF_GROUPS * LEAFS_PER_GROUP) + (LEAF_GROUPS - 1) * LEAFS_PER_GROUP + i)
      with _ | leafA
    · rw [hA] at h
      exact absurd h (by simp)
    · rcases hB : L.leafs.get?
          ((c + 1) * (LEAF_GROUPS * LEAFS_PER_GROUP) + (LEAF_GROUPS - 1) * LEAFS_PER_GROUP + i)
        with _ | leafB
      · rw [hA, hB] at h
        exact absurd h (by simp)
      · rw [hA, hB] at h
        exact ⟨c, i, leafA, leafB, hi, hA, hB, h⟩

set_option maxRecDepth 40000 in
/-- C5: the escape-route builder returns the empty sequence whenever
`enabled` is false or `clusterCount < 2`; when enabled with
`clusterCount = 2` it produces exactly 8 leaf pairs, each expanded into 20
(hence at least 16) straight sub-segments, `8 * 20 = 160` (hence at least
128) segments in total; pair `i` connects the leaf at index
`c * 128 + 15 * 8 + i` of cluster `c = 0` (clusterId 0, groupId 15) with
the leaf at the same within-group index of cluster 1 (clusterId 1,
groupId 15). -/
theorem escape_routes_adjacent_pairs :
    (∀ (L : NetworkLayout) (a : Bool) (q : ℚ), a = false ∨ q < 2 →
      buildEscapeRoutes L a q = [])
    ∧ (buildEscapeRoutes (generate 2 false) true 2).length = 8 * 20
    ∧ (∀ i < 8,
        ((buildEscapeRoutes (generate 2 false) true 2).get? (i * 20)).map (fun s => s.1)
          = ((generate 2 false).leafs.get? (0 * 128 + 15 * 8 + i)).map (fun n => n.position)
        ∧ ((buildEscapeRoutes (generate 2 false) true 2).get? (i * 20 + 19)).map (fun s => s.2)
          = ((generate 2 false).leafs.get? (1 * 128 + 15 * 8 + i)).map (fun n => n.position)
        ∧ ((generate 2 false).leafs.get? (0 * 128 + 15 * 8 + i)).map
            (fun n => (n.clusterId, n.groupId)) = some (some 0, some 15)
        ∧ ((generate 2 false).leafs.get? (1 * 128 + 15 * 8 + i)).map
            (fun n => (n.clusterId, n.groupId)) = some (some 1, some 15)) := by
  refine ⟨escape_empty_of_disabled, ?_, ?_⟩
  · exact of_decide_eq_true (by with_unfolding_all rfl)
  · exact of_decide_eq_true (by with_unfolding_all rfl)

/-- Witness for C5: with escape mode off the builder yields no segments
even on a two-cluster topology. -/
theorem escape_routes_adjacent_pairs_witness :
    buildEscapeRoutes (generate 2 false) false 2 = [] :=
  escape_routes_adjacent_pairs.1 (generate 2 false) false 2 (Or.inl rfl)

set_option maxRecDepth 40000 in
/-- C10: the escape-route builder is total over arbitrary topologies:
every positional leaf lookup is guarded, every emitted segment comes from
a pair of successful lookups, a leaf sequence too short for even the first
pair yields the empty output, and a topology with fewer leafs than the
computed indices demand (here: one cluster of leafs with
`clusterCount = 5`) silently yields an empty output instead of an error. -/
theorem escape_routes_guarded_lookups :
    (∀ (L : NetworkLayout) (a : Bool) (q : ℚ), L.leafs.length ≤ 120 →
      buildEscapeRoutes L a q = [])
    ∧ (∀ (L : NetworkLayout) (a : Bool) (q : ℚ) (seg : Segment),
        seg ∈ buildEscapeRoutes L a q →
        ∃ c i leafA leafB, i < LEAFS_PER_GROUP
          ∧ L.leafs.get?
              (c * (LEAF_GROUPS * LEAFS_PER_GROUP) + (LEAF_GROUPS - 1) * LEAFS_PER_GROUP + i)
              = some leafA
          ∧ L.leafs.get?
              ((c + 1) * (LEAF_GROUPS * LEAFS_PER_GROUP)
                + (LEAF_GROUPS - 1) * LEAFS_PER_GROUP + i)
              = some leafB
          ∧ seg ∈ escapePairSegments leafA leafB)
    ∧ buildEscapeRoutes (generate 1 false) true 5 = [] := by
  refine ⟨escape_empty_of_short, fun _ _ _ _ h => mem_buildEscapeRoutes h, ?_⟩
  exact of_decide_eq_true (by with_unfolding_all rfl)

/-- Witness for C10: the empty topology produces no escape segments. -/
theorem escape_routes_guarded_lookups_witness :
    buildEscapeRoutes (NetworkLayout.mk [] [] []) true 2 = [] :=
  escape_routes_guarded_lookups.1 (NetworkLayout.mk [] [] []) true 2 (by simp)

/-! ## Node id uniqueness (claim C9) -/

lemma pairwise_lt_flatMap_range (N : ℕ) (f : ℕ → List ℕ)
    (h1 : ∀ c, (f c).Pairwise (· < ·))
    (h2 : ∀ c c', c < c' → ∀ x ∈ f c, ∀ y ∈ f c', x < y) :
    ((List.range N).flatMap f).Pairwise (· < ·) := by
  induction N with
  | zero => simp
  | succ n ih =>
    rw [List.range_succ, List.flatMap_append, List.pairwise_append]
    refine ⟨ih, by simpa using h1 n, ?_⟩
    intro x hx y hy
    rw [List.mem_flatMap] at hx
    obtain ⟨c, hc, hxc⟩ := hx
    rw [List.mem_range] at hc
    have hyn : y ∈ f n := by simpa using hy
    exact h2 c n hc x hxc y hyn

lemma pairwise_lt_map_range (K : ℕ) (f : ℕ → ℕ) (hf : ∀ i j, i < j → f i < f j) :
    ((List.range K).map f).Pairwise (· < ·) := by
  rw [List.pairwise_map]
  exact (List.pairwise_lt_range K).imp fun h => hf _ _ h

lemma spines_ids (q : ℚ) (b : Bool) :
    ((generate q b).spines.map fun n => n.id)
      = (List.range (loopIters q)).flatMap fun c =>
          (List.range 64).map fun i => c * 192 + i := by
  rw [spines_generate, List.map_flatMap]
  simp only [List.map_map]
  rfl

lemma leafs_ids (q : ℚ) (b : Bool) :
    ((generate q b).leafs.map fun n => n.id)
      = (List.range (loopIters q)).flatMap fun c =>
          (List.range 16).flatMap fun g =>
            (List.range 8).map fun l => c * 192 + 64 + g * 8 + l := by
  rw [leafs_generate, List.map_flatMap]
  simp only [List.map_flatMap, List.map_map]
  rfl

lemma servers_ids (q : ℚ) :
    ((generate q true).servers.map fun n => n.id)
      = (List.range 16).flatMap fun g =>
          (List.range (serverCount g)).map fun s =>
            loopIters q * 192 + serverIdOffset g + s := by
  rw [servers_generate_true, List.map_flatMap]
  simp only [List.map_map]
  rfl

lemma serverIdOffset_succ (g : ℕ) :
    serverIdOffset (g + 1) = serverIdOffset g + serverCount g := by
  simp [serverIdOffset, List.range_succ]

lemma serverIdOffset_mono : Monotone serverIdOffset :=
  monotone_nat_of_le_succ fun n => by
    rw [serverIdOffset_succ]
    omega

lemma spines_ids_pairwise (q : ℚ) (b : Bool) :
    ((generate q b).spines.map fun n => n.id).Pairwise (· < ·) := by
  rw [spines_ids]
  apply pairwise_lt_flatMap_range
  · intro c
    apply pairwise_lt_map_range
    intro i j hij
    omega
  · intro c c' hcc x hx y hy
    rw [List.mem_map] at hx hy
    obtain ⟨i, hi, rfl⟩ := hx
    obtain ⟨j, hj, rfl⟩ := hy
    rw [List.mem_range] at hi hj
    omega

lemma leafs_ids_pairwise (q : ℚ) (b : Bool) :
    ((generate q b).leafs.map fun n => n.id).Pairwise (· < ·) := by
  rw [leafs_ids]
  apply pairwise_lt_flatMap_range
  · intro c
    apply pairwise_lt_flatMap_range
    · intro g
      apply pairwise_lt_map_range
      intro i j hij
      omega
    · intro g g' hgg x hx y hy
      rw [List.mem_map] at hx hy
      obtain ⟨i, hi, rfl⟩ := hx
      obtain ⟨j, hj, rfl⟩ := hy
      rw [List.mem_range] at hi hj
      omega
  · intro c c' hcc x hx y hy
    rw [List.mem_flatMap] at hx hy
    obtain ⟨g, hg, hx⟩ := hx
    obtain ⟨g', hg', hy⟩ := hy
    rw [List.mem_map] at hx hy
    obtain ⟨i, hi, rfl⟩ := hx
    obtain ⟨j, hj, rfl⟩ := hy
    rw [List.mem_range] at hi hj hg hg'
    omega

lemma servers_ids_pairwise (q : ℚ) :
    ((generate q true).servers.map fun n => n.id).Pairwise (· < ·) := by
  rw [servers_ids]
  apply pairwise_lt_flatMap_range
  · intro g
    apply pairwise_lt_map_range
    intro i j hij
    omega
  · intro g g' hgg x hx y hy
    rw [List.mem_map] at hx hy
    obtain ⟨s, hs, rfl⟩ := hx
    obtain ⟨s', hs', rfl⟩ := hy
    rw [List.mem_range] at hs hs'
    have hoff : serverIdOffset g + serverCount g ≤ serverIdOffset g' := by
      rw [← serverIdOffset_succ]
      exact serverIdOffset_mono hgg
    omega

lemma mem_spines_ids {q : ℚ} {b : Bool} {x : ℕ}
    (h : x ∈ (generate q b).spines.map fun n => n.id) :
    ∃ c < loopIters q, ∃ i < 64, x = c * 192 + i := by
  rw [spines_ids, List.mem_flatMap] at h
  obtain ⟨c, hc, h⟩ := h
  rw [List.mem_map] at h
  obtain ⟨i, hi, rfl⟩ := h
  rw [List.mem_range] at hc hi
  exact ⟨c, hc, i, hi, rfl⟩

lemma mem_leafs_ids {q : ℚ} {b : Bool} {x : ℕ}
    (h : x ∈ (generate q b).leafs.map fun n => n.id) :
    ∃ c < loopIters q, ∃ g < 16, ∃ l < 8, x = c * 192 + 64 + g * 8 + l := by
  rw [leafs_ids, List.mem_flatMap] at h
  obtain ⟨c, hc, h⟩ := h
  rw [List.mem_flatMap] at h
  obtain ⟨g, hg, h⟩ := h
  rw [List.mem_map] at h
  obtain ⟨l, hl, rfl⟩ := h
  rw [List.mem_range] at hc hg hl
  exact ⟨c, hc, g, hg, l, hl, rfl⟩

lemma mem_servers_ids {q : ℚ} {x : ℕ}
    (h : x ∈ (generate q true).servers.map fun n => n.id) :
    loopIters q * 192 ≤ x := by
  rw [servers_ids, List.mem_flatMap] at h
  obtain ⟨g, hg, h⟩ := h
  rw [List.mem_map] at h
  obtain ⟨s, hs, rfl⟩ := h
  omega

lemma ids_nodup (q : ℚ) (b : Bool) :
    ((allNodes (generate q b)).map fun n => n.id).Nodup := by
  have hnsp : ((generate q b).spines.map fun n => n.id).Nodup :=
    (spines_ids_pairwise q b).imp fun h => Nat.ne_of_lt h
  have hnlf : ((generate q b).leafs.map fun n => n.id).Nodup :=
    (leafs_ids_pairwise q b).imp fun h => Nat.ne_of_lt h
  have hdisj_sl : ((generate q b).spines.map fun n => n.id).Disjoint
      ((generate q b).leafs.map fun n => n.id) := by
    rw [List.disjoint_left]
    intro x hx hy
    obtain ⟨c, hc, i, hi, rfl⟩ := mem_spines_ids hx
    obtain ⟨c', hc', g, hg, l, hl, heq⟩ := mem_leafs_ids hy
    omega
  rw [allNodes, List.map_append, List.map_append, List.nodup_append]
  refine ⟨List.nodup_append.mpr ⟨hnsp, hnlf, hdisj_sl⟩, ?_, ?_⟩
  · cases b with
    | false =>
      rw [servers_generate_false]
      simp
    | true =>
      exact (servers_ids_pairwise q).imp fun h => Nat.ne_of_lt h
  · rw [List.disjoint_left]
    intro x hx hy
    cases b with
    | false =>
      rw [servers_generate_false] at hy
      simp at hy
    | true =>
      have hge := mem_servers_ids hy
      rw [List.mem_append] at hx
      rcases hx with hx | hx
      · obtain ⟨c, hc, i, hi, rfl⟩ := mem_spines_ids hx
        omega
      · obtain ⟨c, hc, g, hg, l, hl, rfl⟩ := mem_leafs_ids hx
        omega

/-- C9: within one generation pass node ids are unique across all three
sequences; every leaf carries exactly one `clusterId` in `[0, clusterCount)`
and one `groupId` in `[0, 15]`; every spine carries exactly one `clusterId`
and no `groupId`; every server carries exactly one `groupId` and no
`clusterId`. -/
theorem node_identity_and_membership :
    ∀ (C : ℕ) (b : Bool),
      ((allNodes (generate (C : ℚ) b)).map fun n => n.id).Nodup
      ∧ (∀ l ∈ (generate (C : ℚ) b).leafs, ∃ c g,
          l.clusterId = some c ∧ l.groupId = some g ∧ c < C ∧ g ≤ 15)
      ∧ (∀ s ∈ (generate (C : ℚ) b).spines,
          (∃ c, s.clusterId = some c) ∧ s.groupId = none)
      ∧ (∀ v ∈ (generate (C : ℚ) b).servers,
          (∃ g, v.groupId = some g) ∧ v.clusterId = none) := by
  intro C b
  refine ⟨ids_nodup (C : ℚ) b, ?_, ?_, ?_⟩
  · intro l hl
    rw [mem_leafs_generate] at hl
    obtain ⟨c, hc, g, hg, l', hl', rfl⟩ := hl
    rw [loopIters_natCast] at hc
    refine ⟨c, g, rfl, rfl, hc, ?_⟩
    simp only [LEAF_GROUPS] at hg
    omega
  · intro s hs
    rw [mem_spines_generate] at hs
    obtain ⟨c, hc, i, hi, rfl⟩ := hs
    exact ⟨⟨c, rfl⟩, rfl⟩
  · intro v hv
    cases b with
    | false =>
      rw [servers_generate_false] at hv
      simp at hv
    | true =>
      rw [mem_servers_generate] at hv
      obtain ⟨g, hg, s, hs, rfl⟩ := hv
      exact ⟨⟨g, rfl⟩, rfl⟩

/-- Witness for C9: the ids of the one-cluster topology with servers are
pairwise distinct. -/
theorem node_identity_and_membership_witness :
    ((allNodes (generate ((1 : ℕ) : ℚ) true)).map fun n => n.id).Nodup :=
  (node_identity_and_membership 1 true).1
